import Mathlib

/-!
Verification of the go-lbfgsb coordination core (Go + Fortran 2003 glue for
the L-BFGS-B solver).  The definitions below are shallow embeddings of the
code in `lbfgsb.go`, `optim.go` and `lbfgsb_c.f03` (module `lbfgsb_c`): the
task-interpretation state machine, the exit-status translation, the driver
loop around the external `setulb` stepper (modelled as an opaque oracle),
the bounds encoding, parameter processing, and the Go callback adapters.
Strings are modelled as `List Char` (Fortran fixed-length strings are
represented by their contents up to trailing blanks, which is exactly what
every operation used by the code observes).  IEEE doubles are modelled by a
four-way classification (NaN, -Inf, +Inf, finite rational): the code under
verification only ever classifies floats (`math.IsNaN`, `math.IsInf`,
comparisons with zero) and never does float arithmetic.
-/

namespace GoLbfgsb

/-- GoFloat models an IEEE double as far as this code observes it:
NaN, an infinity with a sign, or a finite value (modelled as a rational).
The coordination core never performs float arithmetic; it only classifies
values and passes them through. -/
inductive GoFloat where
  | nan : GoFloat
  | inf (pos : Bool) : GoFloat
  | finite (val : ℚ) : GoFloat
deriving DecidableEq, Repr

/-- Zero double (`0d0`, `0.0`). -/
def GoFloat.zero : GoFloat := GoFloat.finite 0

/-- Model of Go `math.IsNaN(x)`. -/
def GoFloat.isNaN : GoFloat → Bool
  | GoFloat.nan => true
  | _ => false

/-- Model of Go `math.IsInf(x, -1)` (is x negative infinity). -/
def GoFloat.isNegInf : GoFloat → Bool
  | GoFloat.inf pos => !pos
  | _ => false

/-- Model of Go `math.IsInf(x, 1)` (is x positive infinity). -/
def GoFloat.isPosInf : GoFloat → Bool
  | GoFloat.inf pos => pos
  | _ => false

/-- Model of the Go comparison `x == 0.0` (IEEE: NaN and infinities are not
equal to zero). -/
def GoFloat.eqZero : GoFloat → Bool
  | GoFloat.finite q => q = 0
  | _ => false

/-- Model of the Go comparison `x <= 0.0` (IEEE: false for NaN and +Inf,
true for -Inf). -/
def GoFloat.leZero : GoFloat → Bool
  | GoFloat.nan => false
  | GoFloat.inf pos => !pos
  | GoFloat.finite q => q ≤ 0

/-! Fortran character-string primitives.  A Fortran `character(len=n)`
variable is blank padded; all operations the code performs (`len_trim`,
`trim`, `index`, comparison, substring from a fixed position) are invariant
under trailing blanks, so a string value is modelled by its `List Char`
contents with trailing blanks stripped where observed. -/

/-- Strip trailing blanks: the contents a Fortran `trim`/`len_trim` sees. -/
def rtrim (s : List Char) : List Char :=
  (s.reverse.dropWhile (fun c => c = ' ')).reverse

/-- Model of Fortran `len_trim`. -/
def lenTrim (s : List Char) : Nat := (rtrim s).length

/-- Position of the first colon, if any (Fortran `index(task, ':')`,
shifted to 0-based: `index` returns i+1 when the colon is at 0-based i,
and 0 when absent). -/
def colonPos : List Char → Option Nat
  | [] => none
  | c :: cs => if c = ':' then some 0 else (colonPos cs).map (fun n => n + 1)

/-- Number of characters of the keyword of a task token: `interpret_task`
computes `cut_index = index(task, ':') - 1` and falls back to
`len_trim(task)` when there is no colon. -/
def cutLen (task : List Char) : Nat :=
  match colonPos task with
  | some i => i
  | none => lenTrim task

/-- Keyword of a task token: `task(1:cut_index)`, the text before the first
colon, or the whole (trimmed) token if there is no colon. -/
def keywordOf (task : List Char) : List Char := task.take (cutLen task)

/-- Fortran comparison of two character strings: the shorter operand is
blank padded, so two strings are equal iff they agree after stripping
trailing blanks. -/
def fEq (a b : List Char) : Bool := rtrim a = rtrim b

/-- Shorthand turning a Lean string literal into the `List Char` model. -/
def str (s : String) : List Char := s.toList

/-- Model of subroutine `interpret_task` (lbfgsb_c.f03:530-613): classify a
task token into one of the disjoint state strings START, EVAL_FG, NEW_X,
CONVERGENCE, ABNORMAL, WARNING, ERROR_USAGE, ERROR_INTERNAL and extract the
embedded message.  The message slices `task(14:)`, `task(10:)`, `task(8:)`
are `List.drop 13/9/7`. -/
def interpret_task (task : List Char) : List Char × List Char :=
  let kw := keywordOf task
  if fEq kw (str "START") then
    (str "START", [])
  else if fEq kw (str "FG") ∨ fEq kw (str "FG_LNSRCH") ∨ fEq kw (str "FG_START") then
    (str "EVAL_FG", [])
  else if fEq kw (str "NEW_X") then
    (str "NEW_X", [])
  else if fEq kw (str "CONVERGENCE") then
    (str "CONVERGENCE", task.drop 13)
  else if fEq kw (str "ABNORMAL_TERMINATION_IN_LNSRCH") then
    (str "ABNORMAL", task)
  else if fEq kw (str "WARNING") then
    (str "WARNING", task.drop 9)
  else if fEq kw (str "ERROR") then
    (str "ERROR_USAGE", task.drop 7)
  else
    (str "ERROR_INTERNAL", str "Unrecognized task: " ++ task)

/-! Exit status codes.  The C enum LBFGSB_STATUS_* (lbfgsb_c.f03:45-54) and
the Go ExitStatusCode constants (optim.go:155-162) agree by design. -/

/-- Exit status code SUCCESS / LBFGSB_STATUS_SUCCESS. -/
def SUCCESS : Int := 0

/-- Exit status code APPROXIMATE / LBFGSB_STATUS_APPROXIMATE. -/
def APPROXIMATE : Int := 1

/-- Exit status code WARNING / LBFGSB_STATUS_WARNING. -/
def WARNING : Int := 2

/-- Exit status code FAILURE / LBFGSB_STATUS_FAILURE. -/
def FAILURE : Int := 3

/-- Exit status code USAGE_ERROR / LBFGSB_STATUS_USAGE_ERROR. -/
def USAGE_ERROR : Int := 4

/-- Exit status code INTERNAL_ERROR / LBFGSB_STATUS_INTERNAL_ERROR. -/
def INTERNAL_ERROR : Int := 5

/-- Model of the final `select case (state)` of `lbfgsb_minimize`
(lbfgsb_c.f03:485-506): translate the final driver state into an exit
status code, with a message update in the unrecognized (default) case. -/
def translate_state (state task message : List Char) : Int × List Char :=
  if state = str "CONVERGENCE" then (SUCCESS, message)
  else if state = str "ABNORMAL" then (APPROXIMATE, message)
  else if state = str "WARNING" then (WARNING, message)
  else if state = str "ERROR_USAGE" then (USAGE_ERROR, message)
  else if state = str "ERROR_INTERNAL" then (INTERNAL_ERROR, message)
  else (INTERNAL_ERROR, str "Error: Unrecognized state: " ++ task)

/-! Driver loop of `lbfgsb_minimize` (lbfgsb_c.f03:301-521).  The external
solver `setulb` is an opaque collaborator: it is modelled as an oracle over
the memory it may read and write (task token, point, function value,
gradient, and its reported statistics `int_state(30)`/`int_state(34)`).
The driver state carries ghost call counters that instrument how many times
each collaborator was invoked; the oracle and the callbacks cannot touch
them. -/

/-- SolverMem is the slice of state that the external `setulb` stepper may
read and mutate: the task token, the current point, the previous function
value and gradient, and its reported iteration and evaluation counts
(`int_state(30)` and `int_state(34)`). -/
structure SolverMem where
  task : List Char
  point : List GoFloat
  funcValue : GoFloat
  gradValue : List GoFloat
  iters : Int
  evals : Int
deriving DecidableEq, Repr

/-- Setulb is the opaque external solver step: the Fortran `setulb`
subroutine, treated as a black box that transforms its visible memory. -/
def Setulb : Type := SolverMem → SolverMem

/-- Result of one objective-function callback invocation: the status code
it returns, the objective value it writes, and the message buffer content
it leaves. -/
structure CbResult where
  status : Int
  value : GoFloat
  message : List Char
deriving DecidableEq, Repr

/-- Result of one objective-gradient callback invocation. -/
structure GradCbResult where
  status : Int
  gradient : List GoFloat
  message : List Char
deriving DecidableEq, Repr

/-- ObjFn is the C objective callback (`objective_function_c`). -/
def ObjFn : Type := List GoFloat → CbResult

/-- GradFn is the C gradient callback (`objective_gradient_c`). -/
def GradFn : Type := List GoFloat → GradCbResult

/-- LogFn is the optional logging callback (`log_function_c`); `none`
models a null C function pointer.  Its integer result is the status code;
the information it is passed is derived from the solver memory. -/
def LogFn : Type := Option (SolverMem → Int)

/-- DriverSt is the state of the driver loop in `lbfgsb_minimize`:
solver memory, the interpreted state and message from `interpret_task`,
the C status-message buffer, the running status code `status_c`
(zero-initialized by `-finit-local-zero`), plus ghost call counters. -/
structure DriverSt where
  mem : SolverMem
  state : List Char
  message : List Char
  statusMessage : List Char
  status : Int
  setulbCalls : Nat
  objCalls : Nat
  gradCalls : Nat
  logCalls : Nat
deriving DecidableEq, Repr

/-- Transient driver states: the loop guard of lbfgsb_c.f03:418-422. -/
def transientStates : List (List Char) :=
  [str "EVAL_FG", str "NEW_X", str "WARNING", str "START"]

/-- Model of `call_logging_function` (lbfgsb_c.f03:618-661): default to
SUCCESS, call the logging callback if one is associated, and on failure
set the status message. -/
def call_logging_function (logf : LogFn) (mem : SolverMem)
    (statusMessage : List Char) : Int × List Char × Nat :=
  match logf with
  | none => (SUCCESS, statusMessage, 0)
  | some f =>
    let s := f mem
    (s, if s ≠ SUCCESS then str "Error: Logging function failed" else statusMessage, 1)

/-- One iteration of the driver loop body (lbfgsb_c.f03:424-468): call
`setulb`, interpret the returned task, then act on the state: on EVAL_FG
dispatch the objective and (only if it succeeded) the gradient; on NEW_X
dispatch the logger; on WARNING do nothing.  The returned Bool is false
exactly when a callback failure exits (`exit`) the loop. -/
def driverStep (solver : Setulb) (obj : ObjFn) (grad : GradFn) (logf : LogFn)
    (st : DriverSt) : DriverSt × Bool :=
  let mem := solver st.mem
  let im := interpret_task mem.task
  let st1 : DriverSt :=
    { st with mem := mem, state := im.1, message := im.2,
              setulbCalls := st.setulbCalls + 1 }
  if st1.state = str "EVAL_FG" then
    let r := obj mem.point
    let st2 : DriverSt :=
      { st1 with mem := { st1.mem with funcValue := r.value },
                 status := r.status, statusMessage := r.message,
                 objCalls := st1.objCalls + 1 }
    if r.status ≠ SUCCESS then (st2, false)
    else
      let rg := grad mem.point
      let st3 : DriverSt :=
        { st2 with mem := { st2.mem with gradValue := rg.gradient },
                   status := rg.status, statusMessage := rg.message,
                   gradCalls := st2.gradCalls + 1 }
      if rg.status ≠ SUCCESS then (st3, false) else (st3, true)
  else if st1.state = str "NEW_X" then
    let lr := call_logging_function logf st1.mem st1.statusMessage
    let st2 : DriverSt :=
      { st1 with status := lr.1, statusMessage := lr.2.1,
                 logCalls := st1.logCalls + lr.2.2 }
    if lr.1 ≠ SUCCESS then (st2, false) else (st2, true)
  else
    (st1, true)

/-- Driver loop (lbfgsb_c.f03:417-469) with explicit fuel: while the state
is transient, run the body; a body that reports a callback failure exits
immediately.  Fuel bounds the number of solver invocations; the real loop
runs until the solver reports a terminal task. -/
def driverLoop (solver : Setulb) (obj : ObjFn) (grad : GradFn) (logf : LogFn) :
    Nat → DriverSt → DriverSt
  | 0, st => st
  | Nat.succ fuel, st =>
    if st.state ∈ transientStates then
      match driverStep solver obj grad logf st with
      | (st1, true) => driverLoop solver obj grad logf fuel st1
      | (st1, false) => st1
    else st

/-- Initial driver state (lbfgsb_c.f03:384-415): `state = 'START'`,
`task = state`, point copied from the initial point, and everything else
zero-initialized by `-finit-local-zero`. -/
def initialDriverSt (dim : Nat) (initialPoint : List GoFloat) : DriverSt :=
  { mem := { task := str "START", point := initialPoint,
             funcValue := GoFloat.zero,
             gradValue := List.replicate dim GoFloat.zero,
             iters := 0, evals := 0 }
    state := str "START", message := [], statusMessage := [],
    status := SUCCESS,
    setulbCalls := 0, objCalls := 0, gradCalls := 0, logCalls := 0 }

/-- CoreResult is what `lbfgsb_minimize` hands back through the C
boundary (status code, message, result triple, statistics), together with
ghost observations of the run used only by theorems. -/
structure CoreResult where
  status : Int
  message : List Char
  minX : List GoFloat
  minF : GoFloat
  minG : List GoFloat
  iters : Int
  evals : Int
  loopStatus : Int
  finalState : List Char
  setulbCalls : Nat
  objCalls : Nat
  gradCalls : Nat
  logCalls : Nat
deriving DecidableEq, Repr

/-- Model of function `lbfgsb_minimize` (lbfgsb_c.f03:301-521): run the
driver loop from the initial state, read the statistics from the solver
memory, and analyze status and state (lbfgsb_c.f03:476-518): on a clean
loop (no callback failure) return the point/value/gradient and the
translated exit status; on a callback failure return the callback's status
and zero-fill the result triple. -/
def lbfgsb_minimize (solver : Setulb) (obj : ObjFn) (grad : GradFn)
    (logf : LogFn) (dim : Nat) (initialPoint : List GoFloat)
    (fuel : Nat) : CoreResult :=
  let fin := driverLoop solver obj grad logf fuel (initialDriverSt dim initialPoint)
  if fin.status = SUCCESS then
    let tr := translate_state fin.state fin.mem.task fin.message
    { status := tr.1, message := rtrim tr.2,
      minX := fin.mem.point, minF := fin.mem.funcValue,
      minG := fin.mem.gradValue,
      iters := fin.mem.iters, evals := fin.mem.evals,
      loopStatus := fin.status, finalState := fin.state,
      setulbCalls := fin.setulbCalls, objCalls := fin.objCalls,
      gradCalls := fin.gradCalls, logCalls := fin.logCalls }
  else
    { status := fin.status, message := fin.statusMessage,
      minX := List.replicate dim GoFloat.zero, minF := GoFloat.zero,
      minG := List.replicate dim GoFloat.zero,
      iters := fin.mem.iters, evals := fin.mem.evals,
      loopStatus := fin.status, finalState := fin.state,
      setulbCalls := fin.setulbCalls, objCalls := fin.objCalls,
      gradCalls := fin.gradCalls, logCalls := fin.logCalls }

/-! Go-side model: optim.go data types and the Lbfgsb solver object of
lbfgsb.go. -/

/-- OptimizationStatistics (optim.go:214-218). -/
structure OptimizationStatistics where
  Iterations : Int
  FunctionEvaluations : Int
  GradientEvaluations : Int
deriving DecidableEq, Repr

/-- PointValueGradient (optim.go:118-122). -/
structure PointValueGradient where
  X : List GoFloat
  F : GoFloat
  G : List GoFloat
deriving DecidableEq, Repr

/-- ExitStatus (optim.go:186-189); the code is one of the SUCCESS..
INTERNAL_ERROR constants, matching the C enum value for value. -/
structure ExitStatus where
  Code : Int
  Message : List Char
deriving DecidableEq, Repr

/-- Lbfgsb solver object (lbfgsb.go:49-71).  Nil Go slices are modelled as
`none`. -/
structure Lbfgsb where
  dimensionality : Int
  lowerBounds : Option (List GoFloat)
  upperBounds : Option (List GoFloat)
  approximationSize : Int
  fTolerance : GoFloat
  gTolerance : GoFloat
  printControl : Int
  statistics : OptimizationStatistics
deriving DecidableEq, Repr

/-- Zero-value Lbfgsb object (valid per the package docs; needs no
explicit construction). -/
def zeroLbfgsb : Lbfgsb :=
  { dimensionality := 0, lowerBounds := none, upperBounds := none,
    approximationSize := 0, fTolerance := GoFloat.zero,
    gTolerance := GoFloat.zero, printControl := 0,
    statistics := ⟨0, 0, 0⟩ }

/-- GoPanic models a Go panic unwinding with its error value. -/
inductive GoPanic where
  | dimensionality (d : Int)
  | user (msg : String)
deriving DecidableEq, Repr

/-- Model of `(*Lbfgsb).Init` (lbfgsb.go:78-99): initialize only if the
dimensionality is still zero; panic on non-positive dimensionality; set
the defaults 5 / 1e-6 / 1e-6 only over zero values; ignore calls
subsequent to the first. -/
def Lbfgsb.Init (s : Lbfgsb) (dimensionality : Int) : Except GoPanic Lbfgsb :=
  if s.dimensionality = 0 then
    if dimensionality ≤ 0 then
      Except.error (GoPanic.dimensionality dimensionality)
    else
      Except.ok
        { s with
          dimensionality := dimensionality,
          approximationSize :=
            if s.approximationSize = 0 then 5 else s.approximationSize,
          fTolerance :=
            if s.fTolerance.eqZero then GoFloat.finite (1 / 1000000)
            else s.fTolerance,
          gTolerance :=
            if s.gTolerance.eqZero then GoFloat.finite (1 / 1000000)
            else s.gTolerance }
  else Except.ok s

/-- GoValue models a value stored in the `map[string]interface{}`
parameters map: a Go `int`, a Go `float64`, or any other dynamic type. -/
inductive GoValue where
  | int (n : Int)
  | float (x : GoFloat)
  | other
deriving DecidableEq, Repr

/-- Model of the Go type assertion `paramVal.(int)`. -/
def GoValue.asInt : GoValue → Option Int
  | GoValue.int n => some n
  | _ => none

/-- Model of the Go type assertion `paramVal.(float64)`. -/
def GoValue.asFloat : GoValue → Option GoFloat
  | GoValue.float x => some x
  | _ => none

/-- Params models the Go parameters map (`nil` map = the constantly-none
function). -/
def Params : Type := String → Option GoValue

/-- Resolution of one integer parameter override (a block of
lbfgsb.go:265-274 / 295-304): an absent key leaves the class-level value;
a present key must pass the `int` type assertion and the range check
(`!ok || <out of range>` in the source), else the block returns a
USAGE_ERROR exit status at once. -/
def resolveParamInt (params : Params) (key : String) (cur : Int)
    (bad : Int → Bool) (msg : List Char) : Except ExitStatus Int :=
  match params key with
  | none => Except.ok cur
  | some v =>
    match v.asInt with
    | some n => if bad n then Except.error ⟨USAGE_ERROR, msg⟩ else Except.ok n
    | none => Except.error ⟨USAGE_ERROR, msg⟩

/-- Resolution of one float64 parameter override (a block of
lbfgsb.go:275-294), analogous to `resolveParamInt`. -/
def resolveParamFloat (params : Params) (key : String) (cur : GoFloat)
    (bad : GoFloat → Bool) (msg : List Char) : Except ExitStatus GoFloat :=
  match params key with
  | none => Except.ok cur
  | some v =>
    match v.asFloat with
    | some x => if bad x then Except.error ⟨USAGE_ERROR, msg⟩ else Except.ok x
    | none => Except.error ⟨USAGE_ERROR, msg⟩

/-- Model of the parameter-processing prologue of Minimize
(lbfgsb.go:263-304), in source order: approximationSize (int, > 0),
fTolerance (float64, > 0), gTolerance (float64, > 0), printControl
(int, >= 0).  Keys other than these four are never consulted. -/
def processParameters (s : Lbfgsb) (params : Params) :
    Except ExitStatus (Int × GoFloat × GoFloat × Int) :=
  match resolveParamInt params "approximationSize" s.approximationSize
      (fun n => decide (n ≤ 0))
      (str "Bad parameter value: approximationSize.  Expected integer >= 1.") with
  | Except.error es => Except.error es
  | Except.ok approximationSize =>
    match resolveParamFloat params "fTolerance" s.fTolerance
        (fun x => x.leZero)
        (str "Bad parameter value: fTolerance.  Expected float >= 0.") with
    | Except.error es => Except.error es
    | Except.ok fTolerance =>
      match resolveParamFloat params "gTolerance" s.gTolerance
          (fun x => x.leZero)
          (str "Bad parameter value: gTolerance.  Expected float >= 0.") with
      | Except.error es => Except.error es
      | Except.ok gTolerance =>
        match resolveParamInt params "printControl" s.printControl
            (fun n => decide (n < 0))
            (str "Bad parameter value: printControl.  Expected integer >= 0.") with
        | Except.error es => Except.error es
        | Except.ok printControl =>
          Except.ok (approximationSize, fTolerance, gTolerance, printControl)

/-- First pass of the bounds-control setup (lbfgsb.go:308-314): for each
stored lower bound that is neither NaN nor -Inf, set the control code
to 1. -/
def markLowerPass : List Int → List GoFloat → List Int
  | bc, [] => bc
  | [], _ :: _ => []
  | b :: bc, bound :: ls =>
    (if !bound.isNaN && !bound.isNegInf then 1 else b) :: markLowerPass bc ls

/-- Second pass of the bounds-control setup (lbfgsb.go:315-322), modelled
exactly as written: the presence test for an UPPER bound is
`!math.IsNaN(bound) && !math.IsInf(bound, -1)` (lbfgsb.go:317), i.e. it
checks for NEGATIVE infinity, and then maps 0 -> 3, 1 -> 2. -/
def markUpperPass : List Int → List GoFloat → List Int
  | bc, [] => bc
  | [], _ :: _ => []
  | b :: bc, bound :: us =>
    (if !bound.isNaN && !bound.isNegInf then 3 - b else b) :: markUpperPass bc us

/-- Bounds control codes computed by Minimize (lbfgsb.go:306-322):
start from `make([]C.int, dim)` (all zero) and run the two passes over
the stored bound slices when they are non-nil. -/
def boundsControlOf (lower upper : Option (List GoFloat)) (dim : Nat) :
    List Int :=
  let bc := List.replicate dim (0 : Int)
  let bc :=
    match lower with
    | none => bc
    | some ls => markLowerPass bc ls
  match upper with
  | none => bc
  | some us => markUpperPass bc us

/-- Model of makeCCopySlice_Float (lbfgsb.go:393-404): a fresh
zero-initialized slice of the given length, with the Go slice's elements
copied over when it is non-nil. -/
def makeCCopySlice_Float (slice : Option (List GoFloat)) (sliceLen : Nat) :
    List GoFloat :=
  match slice with
  | none => List.replicate sliceLen GoFloat.zero
  | some s => s.take sliceLen ++ List.replicate (sliceLen - s.length) GoFloat.zero

/-- CoreArgs is everything Minimize marshals into the C call
`lbfgsb_minimize_c` (lbfgsb.go:366-373). -/
structure CoreArgs where
  dim : Nat
  boundsControl : List Int
  lowerBounds : List GoFloat
  upperBounds : List GoFloat
  approximationSize : Int
  fTolerance : GoFloat
  gTolerance : GoFloat
  initialPoint : List GoFloat
  printControl : Int

/-- Core is the C/Fortran entry point seen from Go, as an oracle. -/
def Core : Type := CoreArgs → CoreResult

/-- GoMinimizeOut packages what a Minimize call produces: the updated
solver object (receiver after the call), the returned minimum and exit
status, and a ghost copy of the core result (`none` iff the external
solver was never invoked). -/
structure GoMinimizeOut where
  solver : Lbfgsb
  minimum : PointValueGradient
  exitStatus : ExitStatus
  core : Option CoreResult
deriving DecidableEq, Repr

/-- Model of `(*Lbfgsb).Minimize` (lbfgsb.go:239-389): Init on the initial
point's length (may panic), dimensionality check, parameter processing
(early USAGE_ERROR returns), bounds encoding, the core call, and the
statistics assignment (`GradientEvaluations = FunctionEvaluations`,
lbfgsb.go:383-386). -/
def Lbfgsb.Minimize (core : Core) (s0 : Lbfgsb) (initialPoint : List GoFloat)
    (parameters : Params) : Except GoPanic GoMinimizeOut :=
  match s0.Init (initialPoint.length : Int) with
  | Except.error p => Except.error p
  | Except.ok s =>
    let dim := initialPoint.length
    if s.dimensionality ≠ (dim : Int) then
      Except.ok { solver := s, minimum := ⟨[], GoFloat.zero, []⟩,
                  exitStatus := ⟨USAGE_ERROR,
                    str "Lbfgsb: Dimensionality of the initial point does not match the dimensionality of the solver."⟩,
                  core := none }
    else
      match processParameters s parameters with
      | Except.error es =>
        Except.ok { solver := s, minimum := ⟨[], GoFloat.zero, []⟩,
                    exitStatus := es, core := none }
      | Except.ok (approximationSize, fTolerance, gTolerance, printControl) =>
        let r := core ⟨dim,
                       boundsControlOf s.lowerBounds s.upperBounds dim,
                       makeCCopySlice_Float s.lowerBounds dim,
                       makeCCopySlice_Float s.upperBounds dim,
                       approximationSize, fTolerance, gTolerance,
                       initialPoint, printControl⟩
        Except.ok { solver := { s with statistics :=
                      { Iterations := r.iters,
                        FunctionEvaluations := r.evals,
                        GradientEvaluations := r.evals } },
                    minimum := { X := r.minX, F := r.minF, G := r.minG },
                    exitStatus := { Code := r.status, Message := r.message },
                    core := some r }

/-- Composition of the Go front end with the Fortran driver model: the
core oracle implemented by `lbfgsb_minimize` over an abstract `setulb`
oracle and the C callbacks. -/
def coreOf (solver : Setulb) (obj : ObjFn) (grad : GradFn) (logf : LogFn)
    (fuel : Nat) : Core :=
  fun args => lbfgsb_minimize solver obj grad logf args.dim args.initialPoint fuel

/-- Model of go_objective_function_callback (lbfgsb.go:424-448): call the
caller's Evaluate, write the value, and return the status code, which the
adapter never sets, so it is the zero value 0 (SUCCESS).  There is no
recover: the source comment at lbfgsb.go:439 reads TODO handle panics, so
a panic in the caller's objective propagates out of the adapter. -/
def go_objective_function_callback
    (evaluate : List GoFloat → Except GoPanic GoFloat)
    (point : List GoFloat) : Except GoPanic (Int × GoFloat) :=
  match evaluate point with
  | Except.error p => Except.error p
  | Except.ok value => Except.ok (SUCCESS, value)

/-- Model of go_objective_gradient_callback (lbfgsb.go:455-480): call the
caller's EvaluateGradient, `copy` the returned slice into the dim-length
gradient buffer, and return the never-set (zero) status code.  No recover
(lbfgsb.go:470: TODO handle panics): a panic propagates. -/
def go_objective_gradient_callback
    (evaluateGradient : List GoFloat → Except GoPanic (List GoFloat))
    (dim : Nat) (point : List GoFloat) (buffer : List GoFloat) :
    Except GoPanic (Int × List GoFloat) :=
  match evaluateGradient point with
  | Except.error p => Except.error p
  | Except.ok gradRet =>
    Except.ok (SUCCESS, gradRet.take (min dim gradRet.length) ++
                        buffer.drop (min dim gradRet.length))

/-! Theorems about the embedded code, one per specification claim. -/

/-- Case analysis for `interpret_task`: the classification depends only on
the trimmed keyword of the token. -/
theorem interpret_task_cases (task : List Char) :
    interpret_task task =
      (if rtrim (keywordOf task) = str "START" then (str "START", [])
       else if rtrim (keywordOf task) = str "FG" ∨
               rtrim (keywordOf task) = str "FG_LNSRCH" ∨
               rtrim (keywordOf task) = str "FG_START" then (str "EVAL_FG", [])
       else if rtrim (keywordOf task) = str "NEW_X" then (str "NEW_X", [])
       else if rtrim (keywordOf task) = str "CONVERGENCE" then
         (str "CONVERGENCE", task.drop 13)
       else if rtrim (keywordOf task) = str "ABNORMAL_TERMINATION_IN_LNSRCH" then
         (str "ABNORMAL", task)
       else if rtrim (keywordOf task) = str "WARNING" then
         (str "WARNING", task.drop 9)
       else if rtrim (keywordOf task) = str "ERROR" then
         (str "ERROR_USAGE", task.drop 7)
       else (str "ERROR_INTERNAL", str "Unrecognized task: " ++ task)) := by
  have h1 : rtrim (str "START") = str "START" := by decide
  have h2 : rtrim (str "FG") = str "FG" := by decide
  have h3 : rtrim (str "FG_LNSRCH") = str "FG_LNSRCH" := by decide
  have h4 : rtrim (str "FG_START") = str "FG_START" := by decide
  have h5 : rtrim (str "NEW_X") = str "NEW_X" := by decide
  have h6 : rtrim (str "CONVERGENCE") = str "CONVERGENCE" := by decide
  have h7 : rtrim (str "ABNORMAL_TERMINATION_IN_LNSRCH") =
      str "ABNORMAL_TERMINATION_IN_LNSRCH" := by decide
  have h8 : rtrim (str "WARNING") = str "WARNING" := by decide
  have h9 : rtrim (str "ERROR") = str "ERROR" := by decide
  simp only [interpret_task, fEq, h1, h2, h3, h4, h5, h6, h7, h8, h9,
    decide_eq_true_eq, Bool.or_eq_true]

/-- C1: the Task Interpreter is total (a function defined on every token)
and classifies by the keyword — the text before the first colon, or the
whole trimmed token when there is no colon: START yields the START state;
FG, FG_LNSRCH and FG_START yield EVAL_FG (evaluation needed); NEW_X
yields NEW_X (new iterate); CONVERGENCE yields CONVERGENCE with the
detail after the keyword as message; ABNORMAL_TERMINATION_IN_LNSRCH
yields ABNORMAL (line search failed) with the full token as message;
WARNING and ERROR yield WARNING and ERROR_USAGE with the detail as
message; and any other token — the empty token included — yields
ERROR_INTERNAL with a message containing the raw token.  The two closing
conjuncts check the documented convergence token and the unrecognized
examples from the spec. -/
theorem interpret_task_classification :
    (∀ task, rtrim (keywordOf task) = str "START" →
      interpret_task task = (str "START", [])) ∧
    (∀ task, rtrim (keywordOf task) = str "FG" ∨
        rtrim (keywordOf task) = str "FG_LNSRCH" ∨
        rtrim (keywordOf task) = str "FG_START" →
      interpret_task task = (str "EVAL_FG", [])) ∧
    (∀ task, rtrim (keywordOf task) = str "NEW_X" →
      interpret_task task = (str "NEW_X", [])) ∧
    (∀ detail, interpret_task (str "CONVERGENCE: " ++ detail) =
      (str "CONVERGENCE", detail)) ∧
    (∀ task, rtrim (keywordOf task) = str "ABNORMAL_TERMINATION_IN_LNSRCH" →
      interpret_task task = (str "ABNORMAL", task)) ∧
    (∀ detail, interpret_task (str "WARNING: " ++ detail) =
      (str "WARNING", detail)) ∧
    (∀ detail, interpret_task (str "ERROR: " ++ detail) =
      (str "ERROR_USAGE", detail)) ∧
    (∀ task, rtrim (keywordOf task) ∉
        [str "START", str "FG", str "FG_LNSRCH", str "FG_START", str "NEW_X",
         str "CONVERGENCE", str "ABNORMAL_TERMINATION_IN_LNSRCH",
         str "WARNING", str "ERROR"] →
      (interpret_task task).1 = str "ERROR_INTERNAL" ∧
      task <:+ (interpret_task task).2) ∧
    interpret_task (str "CONVERGENCE: NORM_OF_PROJECTED_GRADIENT_<=_PGTOL") =
      (str "CONVERGENCE", str "NORM_OF_PROJECTED_GRADIENT_<=_PGTOL") ∧
    interpret_task (str "ABNORMAL_TERMINATION_IN_LNSRCH") =
      (str "ABNORMAL", str "ABNORMAL_TERMINATION_IN_LNSRCH") ∧
    (interpret_task []).1 = str "ERROR_INTERNAL" ∧
    (interpret_task (str "FOO")).1 = str "ERROR_INTERNAL" := by
  refine ⟨?_, ?_, ?_, fun detail => rfl, ?_, fun detail => rfl,
    fun detail => rfl, ?_, by decide, by decide, by decide, by decide⟩
  · intro task h
    rw [interpret_task_cases, h, if_pos (by decide)]
  · intro task h
    rcases h with h | h | h <;>
      rw [interpret_task_cases, h, if_neg (by decide), if_pos (by decide)]
  · intro task h
    rw [interpret_task_cases, h, if_neg (by decide), if_neg (by decide),
      if_pos (by decide)]
  · intro task h
    rw [interpret_task_cases, h, if_neg (by decide), if_neg (by decide),
      if_neg (by decide), if_neg (by decide), if_pos (by decide)]
  · intro task h
    simp only [List.mem_cons, List.not_mem_nil, or_false, not_or] at h
    obtain ⟨n1, n2, n3, n4, n5, n6, n7, n8, n9⟩ := h
    rw [interpret_task_cases, if_neg n1, if_neg (by simp [n2, n3, n4]),
      if_neg n5, if_neg n6, if_neg n7, if_neg n8, if_neg n9]
    exact ⟨rfl, List.suffix_append _ _⟩

/-- C1 witness: the classification applied at concrete tokens of each
hypothesis-bearing kind. -/
theorem interpret_task_classification_witness :
    interpret_task (str "START") = (str "START", []) ∧
    interpret_task (str "FG_LNSRCH") = (str "EVAL_FG", []) ∧
    interpret_task (str "NEW_X") = (str "NEW_X", []) ∧
    interpret_task (str "ABNORMAL_TERMINATION_IN_LNSRCH") =
      (str "ABNORMAL", str "ABNORMAL_TERMINATION_IN_LNSRCH") ∧
    (interpret_task (str "RESTART_FROM_LNSRCH")).1 = str "ERROR_INTERNAL" :=
  ⟨interpret_task_classification.1 (str "START") (by decide),
   interpret_task_classification.2.1 (str "FG_LNSRCH")
     (Or.inr (Or.inl (by decide))),
   interpret_task_classification.2.2.1 (str "NEW_X") (by decide),
   interpret_task_classification.2.2.2.2.1
     (str "ABNORMAL_TERMINATION_IN_LNSRCH") (by decide),
   (interpret_task_classification.2.2.2.2.2.2.2.1
     (str "RESTART_FROM_LNSRCH") (by decide)).1⟩

/-- Each execution of the driver-loop body begins with exactly one
`setulb` invocation, whatever happens afterwards in the body. -/
theorem driverStep_setulb_count (solver : Setulb) (obj : ObjFn)
    (grad : GradFn) (logf : LogFn) (st : DriverSt) :
    ((driverStep solver obj grad logf st).1).setulbCalls = st.setulbCalls + 1 := by
  simp only [driverStep]
  split_ifs <;> rfl

/-- The solver-invocation count never decreases along the driver loop. -/
theorem driverLoop_setulb_mono (solver : Setulb) (obj : ObjFn)
    (grad : GradFn) (logf : LogFn) :
    ∀ (fuel : Nat) (st : DriverSt),
      st.setulbCalls ≤ (driverLoop solver obj grad logf fuel st).setulbCalls := by
  intro fuel
  induction fuel with
  | zero => intro st; exact le_refl _
  | succ n ih =>
    intro st
    simp only [driverLoop]
    split_ifs with hmem
    · rcases hstep : driverStep solver obj grad logf st with ⟨st1, b⟩
      have hc : st1.setulbCalls = st.setulbCalls + 1 := by
        have hcount := driverStep_setulb_count solver obj grad logf st
        rw [hstep] at hcount
        exact hcount
      cases b
      · exact le_of_lt (by omega : st.setulbCalls < st1.setulbCalls)
      · exact le_trans (by omega : st.setulbCalls ≤ st1.setulbCalls) (ih st1)
    · exact le_refl _

/-- C5: the Driver Loop invokes the external solver again exactly when the
current driver state is transient (START, EVAL_FG, NEW_X, WARNING) and no
callback failure has been recorded: (1) started in any non-transient
(terminal) state the loop performs no solver invocation and returns its
state unchanged; (2) started in a transient state with fuel remaining the
solver is invoked at least once more; (3) each loop-body iteration
invokes the solver exactly once; and (4) an iteration whose callback
dispatch reports failure terminates the loop at once — the loop result is
exactly that iteration's state, so no solver invocation ever follows a
recorded callback failure. -/
theorem driver_loop_invocation_discipline :
    (∀ (solver : Setulb) (obj : ObjFn) (grad : GradFn) (logf : LogFn)
       (fuel : Nat) (st : DriverSt), st.state ∉ transientStates →
      driverLoop solver obj grad logf fuel st = st) ∧
    (∀ (solver : Setulb) (obj : ObjFn) (grad : GradFn) (logf : LogFn)
       (fuel : Nat) (st : DriverSt), st.state ∈ transientStates → 0 < fuel →
      st.setulbCalls + 1 ≤
        (driverLoop solver obj grad logf fuel st).setulbCalls) ∧
    (∀ (solver : Setulb) (obj : ObjFn) (grad : GradFn) (logf : LogFn)
       (st : DriverSt),
      ((driverStep solver obj grad logf st).1).setulbCalls =
        st.setulbCalls + 1) ∧
    (∀ (solver : Setulb) (obj : ObjFn) (grad : GradFn) (logf : LogFn)
       (fuel : Nat) (st : DriverSt), st.state ∈ transientStates →
      (driverStep solver obj grad logf st).2 = false →
      driverLoop solver obj grad logf (fuel + 1) st =
        (driverStep solver obj grad logf st).1) := by
  refine ⟨?_, ?_, driverStep_setulb_count, ?_⟩
  · intro solver obj grad logf fuel st h
    cases fuel with
    | zero => rfl
    | succ n =>
      simp only [driverLoop]
      rw [if_neg h]
  · intro solver obj grad logf fuel st hmem hfuel
    obtain ⟨n, rfl⟩ : ∃ n, fuel = n + 1 :=
      ⟨fuel - 1, by omega⟩
    simp only [driverLoop]
    rw [if_pos hmem]
    rcases hstep : driverStep solver obj grad logf st with ⟨st1, b⟩
    have hc : st1.setulbCalls = st.setulbCalls + 1 := by
      have hcount := driverStep_setulb_count solver obj grad logf st
      rw [hstep] at hcount
      exact hcount
    cases b
    · exact le_of_eq hc.symm
    · exact le_trans (le_of_eq hc.symm) (driverLoop_setulb_mono solver obj grad logf n st1)
  · intro solver obj grad logf fuel st hmem hfail
    simp only [driverLoop]
    rw [if_pos hmem]
    rcases hstep : driverStep solver obj grad logf st with ⟨st1, b⟩
    rw [hstep] at hfail
    simp only at hfail
    subst hfail
    rfl

/-- Sample collaborators for concrete driver runs: a solver oracle that
immediately reports convergence, one that requests an evaluation, a
succeeding objective/gradient pair, and an objective that reports
failure. -/
def w5SolverConv : Setulb :=
  fun mem => { mem with task := str "CONVERGENCE: X" }

/-- Sample solver oracle that always requests an evaluation. -/
def w5SolverFG : Setulb := fun mem => { mem with task := str "FG" }

/-- Sample objective callback that succeeds with value 0. -/
def w5Obj : ObjFn :=
  fun _ => { status := SUCCESS, value := GoFloat.zero, message := [] }

/-- Sample objective callback that reports failure. -/
def w5ObjFail : ObjFn :=
  fun _ => { status := FAILURE, value := GoFloat.zero,
             message := str "objective failed" }

/-- Sample gradient callback that succeeds. -/
def w5Grad : GradFn :=
  fun _ => { status := SUCCESS, gradient := [GoFloat.zero], message := [] }

/-- Sample driver state already in the terminal CONVERGENCE state. -/
def w5TermSt : DriverSt :=
  { initialDriverSt 1 [GoFloat.zero] with state := str "CONVERGENCE" }

/-- C5 witness: the discipline applied at concrete states: a terminal
state is returned unchanged with no solver call; a transient state leads
to a solver call; and a failing objective ends the loop after exactly its
own iteration. -/
theorem driver_loop_invocation_discipline_witness :
    driverLoop w5SolverConv w5Obj w5Grad none 3 w5TermSt = w5TermSt ∧
    (initialDriverSt 1 [GoFloat.zero]).setulbCalls + 1 ≤
      (driverLoop w5SolverConv w5Obj w5Grad none 1
        (initialDriverSt 1 [GoFloat.zero])).setulbCalls ∧
    driverLoop w5SolverFG w5ObjFail w5Grad none 4
        (initialDriverSt 1 [GoFloat.zero]) =
      (driverStep w5SolverFG w5ObjFail w5Grad none
        (initialDriverSt 1 [GoFloat.zero])).1 :=
  ⟨driver_loop_invocation_discipline.1 w5SolverConv w5Obj w5Grad none 3
      w5TermSt (by decide),
   driver_loop_invocation_discipline.2.1 w5SolverConv w5Obj w5Grad none 1
      (initialDriverSt 1 [GoFloat.zero]) (by decide) (by norm_num),
   (by norm_num : (4 : Nat) = 3 + 1) ▸
     driver_loop_invocation_discipline.2.2.2 w5SolverFG w5ObjFail w5Grad none 3
      (initialDriverSt 1 [GoFloat.zero]) (by decide) (by decide)⟩

/-- C3: if the first solver task of a run requests an evaluation and the
objective callback reports failure there, the run ends at once with the
callback's reported (failure) status: the gradient callback is never
invoked, there is exactly one evaluation attempt (one objective call, no
gradient call, one solver invocation, no logging call), and the returned
x, f and g are zero-filled.  The last conjunct states the general form:
whenever the loop ends with a recorded callback failure — any callback,
any iteration — the result triple is zero-filled and the returned status
is the recorded callback status, never a partial result. -/
theorem callback_failure_zeroes_result :
    (∀ (solver : Setulb) (obj : ObjFn) (grad : GradFn) (logf : LogFn)
       (dim : Nat) (x0 : List GoFloat) (fuel : Nat),
      0 < fuel →
      (interpret_task (solver (initialDriverSt dim x0).mem).task).1 =
        str "EVAL_FG" →
      (obj (solver (initialDriverSt dim x0).mem).point).status ≠ SUCCESS →
      (lbfgsb_minimize solver obj grad logf dim x0 fuel).status =
          (obj (solver (initialDriverSt dim x0).mem).point).status ∧
        (lbfgsb_minimize solver obj grad logf dim x0 fuel).minX =
          List.replicate dim GoFloat.zero ∧
        (lbfgsb_minimize solver obj grad logf dim x0 fuel).minF = GoFloat.zero ∧
        (lbfgsb_minimize solver obj grad logf dim x0 fuel).minG =
          List.replicate dim GoFloat.zero ∧
        (lbfgsb_minimize solver obj grad logf dim x0 fuel).objCalls = 1 ∧
        (lbfgsb_minimize solver obj grad logf dim x0 fuel).gradCalls = 0 ∧
        (lbfgsb_minimize solver obj grad logf dim x0 fuel).logCalls = 0 ∧
        (lbfgsb_minimize solver obj grad logf dim x0 fuel).setulbCalls = 1) ∧
    (∀ (solver : Setulb) (obj : ObjFn) (grad : GradFn) (logf : LogFn)
       (dim : Nat) (x0 : List GoFloat) (fuel : Nat),
      (lbfgsb_minimize solver obj grad logf dim x0 fuel).loopStatus ≠ SUCCESS →
      (lbfgsb_minimize solver obj grad logf dim x0 fuel).minX =
          List.replicate dim GoFloat.zero ∧
        (lbfgsb_minimize solver obj grad logf dim x0 fuel).minF = GoFloat.zero ∧
        (lbfgsb_minimize solver obj grad logf dim x0 fuel).minG =
          List.replicate dim GoFloat.zero ∧
        (lbfgsb_minimize solver obj grad logf dim x0 fuel).status =
          (lbfgsb_minimize solver obj grad logf dim x0 fuel).loopStatus) := by
  constructor
  · intro solver obj grad logf dim x0 fuel hfuel hfg hfail
    obtain ⟨n, rfl⟩ : ∃ n, fuel = n + 1 := ⟨fuel - 1, by omega⟩
    have hstart : (initialDriverSt dim x0).state ∈ transientStates := by
      show str "START" ∈ transientStates
      decide
    simp only [lbfgsb_minimize, driverLoop, driverStep]
    rw [if_pos hstart]
    rw [if_pos hfg, if_pos hfail]
    rw [if_neg hfail]
    exact ⟨rfl, rfl, rfl, rfl, rfl, rfl, rfl, rfl⟩
  · intro solver obj grad logf dim x0 fuel
    simp only [lbfgsb_minimize]
    split
    · intro h
      exact absurd (by assumption) h
    · intro h
      exact ⟨rfl, rfl, rfl, rfl⟩

/-- Sample solver oracle whose first task requests an evaluation at the
start point. -/
def w3SolverFG : Setulb := fun mem => { mem with task := str "FG_START" }

/-- Sample objective callback that always reports FAILURE. -/
def w3ObjFail : ObjFn :=
  fun _ => { status := FAILURE, value := GoFloat.zero,
             message := str "objective failed" }

/-- Sample gradient callback that succeeds (and must never be reached). -/
def w3Grad : GradFn :=
  fun _ => { status := SUCCESS, gradient := [GoFloat.zero], message := [] }

/-- C3 witness: a run whose objective always fails terminates with exit
status FAILURE, a zeroed result, one objective attempt and no gradient
attempt. -/
theorem callback_failure_zeroes_result_witness :
    (lbfgsb_minimize w3SolverFG w3ObjFail w3Grad none 1 [GoFloat.finite 2] 5).status =
        FAILURE ∧
      (lbfgsb_minimize w3SolverFG w3ObjFail w3Grad none 1 [GoFloat.finite 2] 5).minX =
        List.replicate 1 GoFloat.zero ∧
      (lbfgsb_minimize w3SolverFG w3ObjFail w3Grad none 1 [GoFloat.finite 2] 5).minF =
        GoFloat.zero ∧
      (lbfgsb_minimize w3SolverFG w3ObjFail w3Grad none 1 [GoFloat.finite 2] 5).minG =
        List.replicate 1 GoFloat.zero ∧
      (lbfgsb_minimize w3SolverFG w3ObjFail w3Grad none 1 [GoFloat.finite 2] 5).objCalls = 1 ∧
      (lbfgsb_minimize w3SolverFG w3ObjFail w3Grad none 1 [GoFloat.finite 2] 5).gradCalls = 0 ∧
      (lbfgsb_minimize w3SolverFG w3ObjFail w3Grad none 1 [GoFloat.finite 2] 5).logCalls = 0 ∧
      (lbfgsb_minimize w3SolverFG w3ObjFail w3Grad none 1 [GoFloat.finite 2] 5).setulbCalls = 1 :=
  callback_failure_zeroes_result.1 w3SolverFG w3ObjFail w3Grad none 1
    [GoFloat.finite 2] 5 (by norm_num) (by decide) (by decide)

/-- C2: the claim states that an upper bound is absent iff it is NaN or
positive infinity, so a dimension with stored bounds [-Inf, +Inf] must get
control code 0 (Unbounded).  The code (lbfgsb.go:317) instead tests the
upper bound with `math.IsInf(bound, -1)` (negative infinity), so +Inf is
treated as a present upper bound and the encoder emits control code 3
(UpperOnly) for that dimension.  This theorem evaluates the embedded
encoder at that failing input, exhibiting the divergence; the claim (and
the documentation of the Lbfgsb struct and of SetBounds/SetBoundsSparse,
which place ±Inf for omitted bounds) is the intent, the code is the
slip. -/
theorem bounds_control_posinf_upper_bug :
    boundsControlOf (some [GoFloat.inf false]) (some [GoFloat.inf true]) 1 = [3] ∧
    boundsControlOf (some [GoFloat.inf false]) (some [GoFloat.inf true]) 1 ≠ [0] := by
  constructor
  · rfl
  · decide

/-- C4: the Exit Status Translator (the final `select case (state)` of
lbfgsb_minimize) is total over final driver states: CONVERGENCE maps to
SUCCESS, ABNORMAL (abnormal line-search termination) to APPROXIMATE,
WARNING to WARNING, ERROR_USAGE to USAGE_ERROR, ERROR_INTERNAL to
INTERNAL_ERROR, and every other state falls to the default case and maps
to INTERNAL_ERROR.  Moreover every driver run yields exactly one exit
status: the callback status when a callback failed, else the translation
of the final state — the severity is never left unset. -/
theorem exit_status_translation_total :
    (∀ task msg, translate_state (str "CONVERGENCE") task msg = (SUCCESS, msg)) ∧
    (∀ task msg, translate_state (str "ABNORMAL") task msg = (APPROXIMATE, msg)) ∧
    (∀ task msg, translate_state (str "WARNING") task msg = (WARNING, msg)) ∧
    (∀ task msg, translate_state (str "ERROR_USAGE") task msg = (USAGE_ERROR, msg)) ∧
    (∀ task msg, translate_state (str "ERROR_INTERNAL") task msg = (INTERNAL_ERROR, msg)) ∧
    (∀ state task msg,
      state ∉ [str "CONVERGENCE", str "ABNORMAL", str "WARNING",
               str "ERROR_USAGE", str "ERROR_INTERNAL"] →
      (translate_state state task msg).1 = INTERNAL_ERROR) ∧
    (∀ (solver : Setulb) (obj : ObjFn) (grad : GradFn) (logf : LogFn)
       (dim : Nat) (x0 : List GoFloat) (fuel : Nat),
      (lbfgsb_minimize solver obj grad logf dim x0 fuel).status =
        (let fin := driverLoop solver obj grad logf fuel (initialDriverSt dim x0)
         if fin.status = SUCCESS then
           (translate_state fin.state fin.mem.task fin.message).1
         else fin.status)) := by
  refine ⟨fun task msg => rfl, fun task msg => rfl, fun task msg => rfl,
    fun task msg => rfl, fun task msg => rfl, ?_, ?_⟩
  · intro state task msg h
    simp only [List.mem_cons, List.not_mem_nil, or_false, not_or] at h
    obtain ⟨h1, h2, h3, h4, h5⟩ := h
    simp [translate_state, h1, h2, h3, h4, h5]
  · intro solver obj grad logf dim x0 fuel
    simp only [lbfgsb_minimize]
    split <;> rfl

/-- C4 witness: the translator applied at a state outside the recognized
five falls to the default INTERNAL_ERROR case. -/
theorem exit_status_translation_total_witness :
    (translate_state (str "EVAL_FG") (str "FG") []).1 = INTERNAL_ERROR :=
  exit_status_translation_total.2.2.2.2.2.1 (str "EVAL_FG") (str "FG") []
    (by decide)

/-- C7: the claim states that a panicking caller callback is caught at the
Callback Dispatcher boundary and converted into a Failed outcome.  The
code has no recover: both adapters carry the source comment TODO handle
panics (lbfgsb.go:439, lbfgsb.go:470), so a panic propagates out of the
adapter (first two conjuncts evaluate the embedded adapters on a panicking
callback), and an adapter that returns normally always returns the
never-assigned zero status, i.e. SUCCESS — it cannot report a Failed
outcome at all (third conjunct). -/
theorem callback_panic_propagates :
    go_objective_function_callback
        (fun _ => Except.error (GoPanic.user "boom")) [GoFloat.zero] =
      Except.error (GoPanic.user "boom") ∧
    go_objective_gradient_callback
        (fun _ => Except.error (GoPanic.user "boom")) 1 [GoFloat.zero]
        [GoFloat.zero] =
      Except.error (GoPanic.user "boom") ∧
    (∀ (evaluate : List GoFloat → Except GoPanic GoFloat)
       (point : List GoFloat) (s : Int) (v : GoFloat),
      go_objective_function_callback evaluate point = Except.ok (s, v) →
      s = SUCCESS) := by
  refine ⟨rfl, rfl, ?_⟩
  intro evaluate point s v h
  unfold go_objective_function_callback at h
  cases hev : evaluate point with
  | error p => rw [hev] at h; exact absurd h (by simp)
  | ok value =>
    rw [hev] at h
    exact (Prod.mk.injEq _ _ _ _ ▸ (Except.ok.injEq _ _ ▸ h)).1.symm

/-- C7 witness: the third conjunct applied to a callback that returns
normally. -/
theorem callback_panic_propagates_witness : (0 : Int) = SUCCESS :=
  callback_panic_propagates.2.2 (fun _ => Except.ok GoFloat.zero) []
    0 GoFloat.zero rfl

/-- An error result of an integer parameter block always carries the
USAGE_ERROR code. -/
theorem resolveParamInt_error_code (params : Params) (key : String)
    (cur : Int) (bad : Int → Bool) (msg : List Char) (es : ExitStatus)
    (h : resolveParamInt params key cur bad msg = Except.error es) :
    es.Code = USAGE_ERROR := by
  unfold resolveParamInt at h
  cases hv : params key with
  | none => rw [hv] at h; exact Except.noConfusion h
  | some v =>
    rw [hv] at h
    dsimp only at h
    cases hvi : v.asInt with
    | none => rw [hvi] at h; cases h; rfl
    | some n =>
      rw [hvi] at h
      dsimp only at h
      split_ifs at h
      cases h
      rfl

/-- An error result of a float parameter block always carries the
USAGE_ERROR code. -/
theorem resolveParamFloat_error_code (params : Params) (key : String)
    (cur : GoFloat) (bad : GoFloat → Bool) (msg : List Char) (es : ExitStatus)
    (h : resolveParamFloat params key cur bad msg = Except.error es) :
    es.Code = USAGE_ERROR := by
  unfold resolveParamFloat at h
  cases hv : params key with
  | none => rw [hv] at h; exact Except.noConfusion h
  | some v =>
    rw [hv] at h
    dsimp only at h
    cases hvi : v.asFloat with
    | none => rw [hvi] at h; cases h; rfl
    | some x =>
      rw [hvi] at h
      dsimp only at h
      split_ifs at h
      cases h
      rfl

/-- A present integer key whose value fails the type assertion or the
range check makes its block return the USAGE_ERROR status. -/
theorem resolveParamInt_bad (params : Params) (key : String) (cur : Int)
    (bad : Int → Bool) (msg : List Char) (v : GoValue)
    (hv : params key = some v)
    (hbad : ∀ n, v.asInt = some n → bad n = true) :
    resolveParamInt params key cur bad msg = Except.error ⟨USAGE_ERROR, msg⟩ := by
  unfold resolveParamInt
  rw [hv]
  dsimp only
  cases hvi : v.asInt with
  | none => rfl
  | some n => dsimp only; rw [if_pos (hbad n hvi)]

/-- A present float key whose value fails the type assertion or the range
check makes its block return the USAGE_ERROR status. -/
theorem resolveParamFloat_bad (params : Params) (key : String) (cur : GoFloat)
    (bad : GoFloat → Bool) (msg : List Char) (v : GoValue)
    (hv : params key = some v)
    (hbad : ∀ x, v.asFloat = some x → bad x = true) :
    resolveParamFloat params key cur bad msg = Except.error ⟨USAGE_ERROR, msg⟩ := by
  unfold resolveParamFloat
  rw [hv]
  dsimp only
  cases hvi : v.asFloat with
  | none => rfl
  | some x => dsimp only; rw [if_pos (hbad x hvi)]

/-- The parameter prologue consults only the four recognized keys. -/
theorem processParameters_congr (s : Lbfgsb) (p q : Params)
    (ha : p "approximationSize" = q "approximationSize")
    (hf : p "fTolerance" = q "fTolerance")
    (hg : p "gTolerance" = q "gTolerance")
    (hc : p "printControl" = q "printControl") :
    processParameters s p = processParameters s q := by
  unfold processParameters resolveParamInt resolveParamFloat
  rw [ha, hf, hg, hc]

/-- A bad approximationSize value fails the whole parameter prologue with
USAGE_ERROR. -/
theorem processParameters_bad_approximationSize (s : Lbfgsb) (p : Params)
    (v : GoValue) (hv : p "approximationSize" = some v)
    (hbad : ∀ n, v.asInt = some n → n ≤ 0) :
    ∃ es, processParameters s p = Except.error es ∧ es.Code = USAGE_ERROR := by
  refine ⟨⟨USAGE_ERROR,
    str "Bad parameter value: approximationSize.  Expected integer >= 1."⟩, ?_, rfl⟩
  unfold processParameters
  rw [resolveParamInt_bad p "approximationSize" s.approximationSize _ _ v hv
    (fun n hn => decide_eq_true (hbad n hn))]

/-- A bad fTolerance value fails the whole parameter prologue with
USAGE_ERROR. -/
theorem processParameters_bad_fTolerance (s : Lbfgsb) (p : Params)
    (v : GoValue) (hv : p "fTolerance" = some v)
    (hbad : ∀ x, v.asFloat = some x → x.leZero = true) :
    ∃ es, processParameters s p = Except.error es ∧ es.Code = USAGE_ERROR := by
  unfold processParameters
  cases h1 : resolveParamInt p "approximationSize" s.approximationSize
      (fun n => decide (n ≤ 0))
      (str "Bad parameter value: approximationSize.  Expected integer >= 1.") with
  | error e => exact ⟨e, rfl, resolveParamInt_error_code _ _ _ _ _ _ h1⟩
  | ok a =>
    refine ⟨⟨USAGE_ERROR,
      str "Bad parameter value: fTolerance.  Expected float >= 0."⟩, ?_, rfl⟩
    dsimp only
    rw [resolveParamFloat_bad p "fTolerance" s.fTolerance _ _ v hv hbad]

/-- A bad gTolerance value fails the whole parameter prologue with
USAGE_ERROR. -/
theorem processParameters_bad_gTolerance (s : Lbfgsb) (p : Params)
    (v : GoValue) (hv : p "gTolerance" = some v)
    (hbad : ∀ x, v.asFloat = some x → x.leZero = true) :
    ∃ es, processParameters s p = Except.error es ∧ es.Code = USAGE_ERROR := by
  unfold processParameters
  cases h1 : resolveParamInt p "approximationSize" s.approximationSize
      (fun n => decide (n ≤ 0))
      (str "Bad parameter value: approximationSize.  Expected integer >= 1.") with
  | error e => exact ⟨e, rfl, resolveParamInt_error_code _ _ _ _ _ _ h1⟩
  | ok a =>
    dsimp only
    cases h2 : resolveParamFloat p "fTolerance" s.fTolerance
        (fun x => x.leZero)
        (str "Bad parameter value: fTolerance.  Expected float >= 0.") with
    | error e => exact ⟨e, rfl, resolveParamFloat_error_code _ _ _ _ _ _ h2⟩
    | ok f =>
      refine ⟨⟨USAGE_ERROR,
        str "Bad parameter value: gTolerance.  Expected float >= 0."⟩, ?_, rfl⟩
      dsimp only
      rw [resolveParamFloat_bad p "gTolerance" s.gTolerance _ _ v hv hbad]

/-- A bad printControl value fails the whole parameter prologue with
USAGE_ERROR. -/
theorem processParameters_bad_printControl (s : Lbfgsb) (p : Params)
    (v : GoValue) (hv : p "printControl" = some v)
    (hbad : ∀ n, v.asInt = some n → n < 0) :
    ∃ es, processParameters s p = Except.error es ∧ es.Code = USAGE_ERROR := by
  unfold processParameters
  cases h1 : resolveParamInt p "approximationSize" s.approximationSize
      (fun n => decide (n ≤ 0))
      (str "Bad parameter value: approximationSize.  Expected integer >= 1.") with
  | error e => exact ⟨e, rfl, resolveParamInt_error_code _ _ _ _ _ _ h1⟩
  | ok a =>
    dsimp only
    cases h2 : resolveParamFloat p "fTolerance" s.fTolerance
        (fun x => x.leZero)
        (str "Bad parameter value: fTolerance.  Expected float >= 0.") with
    | error e => exact ⟨e, rfl, resolveParamFloat_error_code _ _ _ _ _ _ h2⟩
    | ok f =>
      dsimp only
      cases h3 : resolveParamFloat p "gTolerance" s.gTolerance
          (fun x => x.leZero)
          (str "Bad parameter value: gTolerance.  Expected float >= 0.") with
      | error e => exact ⟨e, rfl, resolveParamFloat_error_code _ _ _ _ _ _ h3⟩
      | ok g =>
        refine ⟨⟨USAGE_ERROR,
          str "Bad parameter value: printControl.  Expected integer >= 0."⟩, ?_, rfl⟩
        dsimp only
        rw [resolveParamInt_bad p "printControl" s.printControl _ _ v hv
          (fun n hn => decide_eq_true (hbad n hn))]

/-- Parameter prologue behavior as implemented: two parameter maps that
agree on the four recognized keys (approximationSize, fTolerance,
gTolerance, printControl) make Minimize behave identically, so extra keys
change nothing and the run proceeds with the stored (default) values;
and a recognized key bound to a value that fails the type assertion or
the code's own range check (approximationSize at most 0, a tolerance with
value at most 0 by IEEE comparison — which an IEEE NaN passes, see the
code-bug evidence below — printControl below 0) makes Minimize return
immediately with exit status code USAGE_ERROR and never invoke the
external solver (the ghost core observation stays none). -/
theorem parameter_validation :
    (∀ (core : Core) (s : Lbfgsb) (x0 : List GoFloat) (p q : Params),
      (∀ k, k ∈ ["approximationSize", "fTolerance", "gTolerance",
                 "printControl"] → p k = q k) →
      Lbfgsb.Minimize core s x0 p = Lbfgsb.Minimize core s x0 q) ∧
    (∀ (core : Core) (s : Lbfgsb) (x0 : List GoFloat) (p : Params)
       (v : GoValue) (out : GoMinimizeOut),
      p "approximationSize" = some v → (∀ n, v.asInt = some n → n ≤ 0) →
      Lbfgsb.Minimize core s x0 p = Except.ok out →
      out.exitStatus.Code = USAGE_ERROR ∧ out.core = none) ∧
    (∀ (core : Core) (s : Lbfgsb) (x0 : List GoFloat) (p : Params)
       (v : GoValue) (out : GoMinimizeOut),
      p "fTolerance" = some v → (∀ x, v.asFloat = some x → x.leZero = true) →
      Lbfgsb.Minimize core s x0 p = Except.ok out →
      out.exitStatus.Code = USAGE_ERROR ∧ out.core = none) ∧
    (∀ (core : Core) (s : Lbfgsb) (x0 : List GoFloat) (p : Params)
       (v : GoValue) (out : GoMinimizeOut),
      p "gTolerance" = some v → (∀ x, v.asFloat = some x → x.leZero = true) →
      Lbfgsb.Minimize core s x0 p = Except.ok out →
      out.exitStatus.Code = USAGE_ERROR ∧ out.core = none) ∧
    (∀ (core : Core) (s : Lbfgsb) (x0 : List GoFloat) (p : Params)
       (v : GoValue) (out : GoMinimizeOut),
      p "printControl" = some v → (∀ n, v.asInt = some n → n < 0) →
      Lbfgsb.Minimize core s x0 p = Except.ok out →
      out.exitStatus.Code = USAGE_ERROR ∧ out.core = none) := by
  have hbadpath : ∀ (core : Core) (s : Lbfgsb) (x0 : List GoFloat)
      (p : Params) (out : GoMinimizeOut),
      (∀ s1 : Lbfgsb, ∃ es, processParameters s1 p = Except.error es ∧
        es.Code = USAGE_ERROR) →
      Lbfgsb.Minimize core s x0 p = Except.ok out →
      out.exitStatus.Code = USAGE_ERROR ∧ out.core = none := by
    intro core s x0 p out hbad h
    unfold Lbfgsb.Minimize at h
    cases hInit : Lbfgsb.Init s (x0.length : Int) with
    | error e =>
      rw [hInit] at h
      exact Except.noConfusion h
    | ok s1 =>
      rw [hInit] at h
      dsimp only at h
      split_ifs at h with hdim
      · cases h
        exact ⟨rfl, rfl⟩
      · obtain ⟨es, hes, hcode⟩ := hbad s1
        rw [hes] at h
        cases h
        exact ⟨hcode, rfl⟩
  refine ⟨?_, ?_, ?_, ?_, ?_⟩
  · intro core s x0 p q hpq
    unfold Lbfgsb.Minimize
    cases hInit : Lbfgsb.Init s (x0.length : Int) with
    | error e => rfl
    | ok s1 =>
      dsimp only
      rw [processParameters_congr s1 p q (hpq _ (by simp)) (hpq _ (by simp))
        (hpq _ (by simp)) (hpq _ (by simp))]
  · intro core s x0 p v out hv hbad h
    exact hbadpath core s x0 p out
      (fun s1 => processParameters_bad_approximationSize s1 p v hv hbad) h
  · intro core s x0 p v out hv hbad h
    exact hbadpath core s x0 p out
      (fun s1 => processParameters_bad_fTolerance s1 p v hv hbad) h
  · intro core s x0 p v out hv hbad h
    exact hbadpath core s x0 p out
      (fun s1 => processParameters_bad_gTolerance s1 p v hv hbad) h
  · intro core s x0 p v out hv hbad h
    exact hbadpath core s x0 p out
      (fun s1 => processParameters_bad_printControl s1 p v hv hbad) h

/-- Sample core oracle for the C8 witness (never invoked on the
usage-error path). -/
def w8Core : Core :=
  fun _ => { status := SUCCESS, message := [], minX := [GoFloat.zero],
             minF := GoFloat.zero, minG := [GoFloat.zero], iters := 1,
             evals := 1, loopStatus := SUCCESS,
             finalState := str "CONVERGENCE", setulbCalls := 1, objCalls := 1,
             gradCalls := 1, logCalls := 0 }

/-- Sample parameter map with no entries (a nil Go map). -/
def w8Empty : Params := fun _ => none

/-- Sample parameter map holding only an unrecognized key. -/
def w8Junk : Params :=
  fun k => if k = "bogus" then some GoValue.other else none

/-- Sample parameter map holding an out-of-range approximationSize. -/
def w8BadApprox : Params :=
  fun k => if k = "approximationSize" then some (GoValue.int 0) else none

/-- Result of the Minimize call with the bad approximationSize, used by
the C8 witness. -/
def w8Out : GoMinimizeOut :=
  match Lbfgsb.Minimize w8Core zeroLbfgsb [GoFloat.finite 1] w8BadApprox with
  | Except.ok o => o
  | Except.error _ =>
    { solver := zeroLbfgsb, minimum := ⟨[], GoFloat.zero, []⟩,
      exitStatus := ⟨0, []⟩, core := none }

/-- Concrete instantiation of the parameter-prologue behavior: a map
holding only an unrecognized key behaves like the empty map, and an
approximationSize of 0 yields an immediate USAGE_ERROR with the external
solver never invoked. -/
theorem parameter_validation_witness :
    Lbfgsb.Minimize w8Core zeroLbfgsb [GoFloat.finite 1] w8Empty =
      Lbfgsb.Minimize w8Core zeroLbfgsb [GoFloat.finite 1] w8Junk ∧
    w8Out.exitStatus.Code = USAGE_ERROR ∧ w8Out.core = none :=
  ⟨parameter_validation.1 w8Core zeroLbfgsb [GoFloat.finite 1] w8Empty w8Junk
     (fun k hk => by fin_cases hk <;> rfl),
   parameter_validation.2.1 w8Core zeroLbfgsb [GoFloat.finite 1] w8BadApprox
     (GoValue.int 0) w8Out rfl
     (fun n hn => by
       simp [GoValue.asInt] at hn
       omega)
     rfl⟩

/-- Sample parameter map overriding fTolerance with an IEEE NaN. -/
def w8NanParams : Params :=
  fun k => if k = "fTolerance" then some (GoValue.float GoFloat.nan) else none

/-- Sample solver record as Init leaves the zero-value solver for a
dimension-1 problem (defaults 5 / 1e-6 / 1e-6 set). -/
def w8NanSolver : Lbfgsb :=
  { zeroLbfgsb with dimensionality := 1, approximationSize := 5,
                    fTolerance := GoFloat.finite (1 / 1000000),
                    gTolerance := GoFloat.finite (1 / 1000000) }

/-- Result of the Minimize call with the NaN fTolerance override. -/
def w8NanOut : GoMinimizeOut :=
  match Lbfgsb.Minimize w8Core zeroLbfgsb [GoFloat.finite 1] w8NanParams with
  | Except.ok o => o
  | Except.error _ =>
    { solver := zeroLbfgsb, minimum := ⟨[], GoFloat.zero, []⟩,
      exitStatus := ⟨0, []⟩, core := none }

/-- C8 (code-bug evidence): the claim states that an fTolerance or
gTolerance value that is not a positive float64 makes Minimize return
immediately with USAGE_ERROR, without invoking the external solver.  The
range check in the code is `fTolerance <= 0.0` (lbfgsb.go:279; the same
shape at lbfgsb.go:289 for gTolerance), and an IEEE NaN compares false
under `<=`, so a NaN tolerance — not a positive float64, and invalid per
the struct documentation at lbfgsb.go:53-55 (fTolerance and gTolerance
must be greater than zero to be ready for computation) and the spec's
`f_tolerance: f64 > 0` — is accepted: the parameter prologue resolves it
as the tolerance to use, Minimize proceeds to invoke the external solver
with it, and the exit status is the solver's status, not USAGE_ERROR.
This theorem evaluates the embedded code at that failing input. -/
theorem nan_tolerance_accepted_bug :
    processParameters w8NanSolver w8NanParams =
      Except.ok (5, GoFloat.nan, GoFloat.finite (1 / 1000000), 0) ∧
    Lbfgsb.Minimize w8Core zeroLbfgsb [GoFloat.finite 1] w8NanParams =
      Except.ok w8NanOut ∧
    w8NanOut.core ≠ none ∧
    w8NanOut.exitStatus.Code ≠ USAGE_ERROR := by
  refine ⟨rfl, rfl, ?_, ?_⟩ <;> decide

/-- Init never touches the stored bound slices: whatever branch it takes,
the returned solver carries the same lowerBounds and upperBounds. -/
theorem Init_preserves_bounds (s : Lbfgsb) (d : Int) (s1 : Lbfgsb)
    (h : Lbfgsb.Init s d = Except.ok s1) :
    s1.lowerBounds = s.lowerBounds ∧ s1.upperBounds = s.upperBounds := by
  unfold Lbfgsb.Init at h
  split_ifs at h <;> first
    | exact Except.noConfusion h
    | (cases h; exact ⟨rfl, rfl⟩)

/-- C9: the Bounds Encoder is pure and deterministic: a Minimize call that
returns (on any path, external solver invoked or not) leaves the stored
lowerBounds/upperBounds slices of the solver object unchanged — in
particular a nil bounds slice stays nil — so re-encoding from the
returned solver yields exactly the same control-code vector and padded
bound arrays as encoding from the original solver: repeated Minimize
calls on a reused instance encode identically. -/
theorem bounds_encoding_pure :
    ∀ (core : Core) (s : Lbfgsb) (x0 : List GoFloat) (p : Params)
      (out : GoMinimizeOut),
      Lbfgsb.Minimize core s x0 p = Except.ok out →
      out.solver.lowerBounds = s.lowerBounds ∧
      out.solver.upperBounds = s.upperBounds ∧
      (∀ d, boundsControlOf out.solver.lowerBounds out.solver.upperBounds d =
            boundsControlOf s.lowerBounds s.upperBounds d) ∧
      (∀ d, makeCCopySlice_Float out.solver.lowerBounds d =
            makeCCopySlice_Float s.lowerBounds d) ∧
      (∀ d, makeCCopySlice_Float out.solver.upperBounds d =
            makeCCopySlice_Float s.upperBounds d) ∧
      (s.lowerBounds = none → out.solver.lowerBounds = none) := by
  intro core s x0 p out h
  suffices hb : out.solver.lowerBounds = s.lowerBounds ∧
      out.solver.upperBounds = s.upperBounds by
    exact ⟨hb.1, hb.2, fun d => by rw [hb.1, hb.2], fun d => by rw [hb.1],
      fun d => by rw [hb.2], fun hn => by rw [hb.1, hn]⟩
  unfold Lbfgsb.Minimize at h
  cases hInit : Lbfgsb.Init s (x0.length : Int) with
  | error e =>
    rw [hInit] at h
    exact Except.noConfusion h
  | ok s1 =>
    rw [hInit] at h
    dsimp only at h
    have hs1 := Init_preserves_bounds s (x0.length : Int) s1 hInit
    split_ifs at h
    · cases h
      exact hs1
    · cases hp : processParameters s1 p <;> rw [hp] at h <;> cases h <;>
        exact hs1

/-- Sample core oracle returning a fixed successful result. -/
def w9Core : Core :=
  fun _ => { status := SUCCESS, message := [], minX := [GoFloat.zero],
             minF := GoFloat.zero, minG := [GoFloat.zero], iters := 1,
             evals := 1, loopStatus := SUCCESS,
             finalState := str "CONVERGENCE", setulbCalls := 1, objCalls := 1,
             gradCalls := 1, logCalls := 0 }

/-- Result of the sample Minimize run used by the C9 witness. -/
def w9Out : GoMinimizeOut :=
  match Lbfgsb.Minimize w9Core zeroLbfgsb [GoFloat.finite 3] (fun _ => none) with
  | Except.ok o => o
  | Except.error _ =>
    { solver := zeroLbfgsb, minimum := ⟨[], GoFloat.zero, []⟩,
      exitStatus := ⟨0, []⟩, core := none }

/-- C9 witness: a Minimize call on a solver with nil bounds (zero-value
solver initialized to dimensionality 1 via the call itself) returns the
solver with bounds still nil. -/
theorem bounds_encoding_pure_witness :
    w9Out.solver.lowerBounds = zeroLbfgsb.lowerBounds ∧
    w9Out.solver.upperBounds = zeroLbfgsb.upperBounds ∧
    (∀ d, boundsControlOf w9Out.solver.lowerBounds w9Out.solver.upperBounds d =
          boundsControlOf zeroLbfgsb.lowerBounds zeroLbfgsb.upperBounds d) ∧
    (∀ d, makeCCopySlice_Float w9Out.solver.lowerBounds d =
          makeCCopySlice_Float zeroLbfgsb.lowerBounds d) ∧
    (∀ d, makeCCopySlice_Float w9Out.solver.upperBounds d =
          makeCCopySlice_Float zeroLbfgsb.upperBounds d) ∧
    (zeroLbfgsb.lowerBounds = none → w9Out.solver.lowerBounds = none) :=
  bounds_encoding_pure w9Core zeroLbfgsb [GoFloat.finite 3] (fun _ => none)
    w9Out rfl

/-- C10: Minimize on a zero-value solver with an empty initial point
panics out of the dimensionality check in Init (it does not return a
USAGE_ERROR exit status — the result is a propagated panic, not an ok
value); Init on an uninitialized solver panics for any dimensionality
at most zero; and once the dimensionality is set, Init returns the
receiver with every field unchanged. -/
theorem init_dimensionality_semantics :
    (∀ (core : Core) (p : Params),
      Lbfgsb.Minimize core zeroLbfgsb [] p =
        Except.error (GoPanic.dimensionality 0)) ∧
    (∀ (s : Lbfgsb) (d : Int), s.dimensionality = 0 → d ≤ 0 →
      Lbfgsb.Init s d = Except.error (GoPanic.dimensionality d)) ∧
    (∀ (s : Lbfgsb) (d : Int), s.dimensionality ≠ 0 →
      Lbfgsb.Init s d = Except.ok s) := by
  refine ⟨fun core p => rfl, ?_, ?_⟩
  · intro s d h0 hle
    simp [Lbfgsb.Init, h0, hle]
  · intro s d h
    simp [Lbfgsb.Init, h]

/-- C10 witness: Init panics at dimensionality -3 on an uninitialized
solver, and leaves an initialized solver untouched (dimensionality 2,
Init 0 returns it unchanged without panicking). -/
theorem init_dimensionality_semantics_witness :
    Lbfgsb.Init zeroLbfgsb (-3) = Except.error (GoPanic.dimensionality (-3)) ∧
    Lbfgsb.Init { zeroLbfgsb with dimensionality := 2 } 0 =
      Except.ok { zeroLbfgsb with dimensionality := 2 } :=
  ⟨init_dimensionality_semantics.2.1 zeroLbfgsb (-3) rfl (by norm_num),
   init_dimensionality_semantics.2.2 { zeroLbfgsb with dimensionality := 2 } 0
     (by norm_num)⟩

/-- Modelled from the spec: the external L-BFGS-B solver (`setulb`) is an
out-of-scope collaborator whose implementation is not under src/ (only its
interface declaration in lbfgsb.f03 is).  Per the spec, the driver reads
the evaluation statistic from the solver's own reported count
int_state(34), where one evaluation pairs one objective call with one
gradient call.  This predicate models the consequences the statistics
claim rests on: the reported count never decreases across a step, and a
step whose reported task interprets to a normal terminal outcome
(CONVERGENCE, ABNORMAL, WARNING) has requested — and counted — at least
one evaluation before terminating. -/
def SolverCountsEvaluations (solver : Setulb) : Prop :=
  ∀ mem : SolverMem,
    mem.evals ≤ (solver mem).evals ∧
    ((interpret_task (solver mem).task).1 ∈
        [str "CONVERGENCE", str "ABNORMAL", str "WARNING"] →
      1 ≤ (solver mem).evals)

/-- One driver-loop iteration under a counting solver: if the new state is
a normal terminal outcome then the evaluation count in the solver memory
is at least 1 (the callbacks never modify the count). -/
theorem driverStep_evals_invariant (solver : Setulb) (obj : ObjFn)
    (grad : GradFn) (logf : LogFn) (hs : SolverCountsEvaluations solver)
    (st : DriverSt) :
    ((driverStep solver obj grad logf st).1).state ∈
        [str "CONVERGENCE", str "ABNORMAL", str "WARNING"] →
      1 ≤ ((driverStep solver obj grad logf st).1).mem.evals := by
  simp only [driverStep]
  split_ifs <;> exact fun hmem => (hs st.mem).2 hmem

/-- Driver-loop invariant under a counting solver: a loop result in a
normal terminal state carries an evaluation count of at least 1. -/
theorem driverLoop_evals_invariant (solver : Setulb) (obj : ObjFn)
    (grad : GradFn) (logf : LogFn) (hs : SolverCountsEvaluations solver) :
    ∀ (fuel : Nat) (st : DriverSt),
      (st.state ∈ [str "CONVERGENCE", str "ABNORMAL", str "WARNING"] →
        1 ≤ st.mem.evals) →
      (driverLoop solver obj grad logf fuel st).state ∈
          [str "CONVERGENCE", str "ABNORMAL", str "WARNING"] →
        1 ≤ (driverLoop solver obj grad logf fuel st).mem.evals := by
  intro fuel
  induction fuel with
  | zero => intro st hst; exact hst
  | succ n ih =>
    intro st hst
    simp only [driverLoop]
    split_ifs with hmem
    · rcases hstep : driverStep solver obj grad logf st with ⟨st1, b⟩
      have h1 : st1.state ∈ [str "CONVERGENCE", str "ABNORMAL",
          str "WARNING"] → 1 ≤ st1.mem.evals := by
        have hinv := driverStep_evals_invariant solver obj grad logf hs st
        rw [hstep] at hinv
        exact hinv
      cases b
      · exact h1
      · exact ih st1 h1
    · exact hst

/-- The ghost statistics of `lbfgsb_minimize` report exactly the loop-end
solver memory count and loop-end state, on both result paths. -/
theorem lbfgsb_minimize_ghost (solver : Setulb) (obj : ObjFn) (grad : GradFn)
    (logf : LogFn) (dim : Nat) (x0 : List GoFloat) (fuel : Nat) :
    (lbfgsb_minimize solver obj grad logf dim x0 fuel).evals =
      (driverLoop solver obj grad logf fuel
        (initialDriverSt dim x0)).mem.evals ∧
    (lbfgsb_minimize solver obj grad logf dim x0 fuel).finalState =
      (driverLoop solver obj grad logf fuel (initialDriverSt dim x0)).state := by
  unfold lbfgsb_minimize
  dsimp only
  split_ifs <;> exact ⟨rfl, rfl⟩

/-- C6: after a Minimize call that invoked the external core, the saved
statistics satisfy GradientEvaluations = FunctionEvaluations — the Go
code assigns one from the other (lbfgsb.go:383-386) — and for a run that
did not fail immediately (no recorded callback failure, normal terminal
driver state) both are at least 1, given the spec-modelled behavior of
the external solver's evaluation counter. -/
theorem statistics_paired_evaluations :
    ∀ (solver : Setulb) (obj : ObjFn) (grad : GradFn) (logf : LogFn)
      (fuel : Nat) (s : Lbfgsb) (x0 : List GoFloat) (p : Params)
      (out : GoMinimizeOut) (cr : CoreResult),
      SolverCountsEvaluations solver →
      Lbfgsb.Minimize (coreOf solver obj grad logf fuel) s x0 p =
        Except.ok out →
      out.core = some cr →
      out.solver.statistics.GradientEvaluations =
        out.solver.statistics.FunctionEvaluations ∧
      (cr.loopStatus = SUCCESS →
        cr.finalState ∈ [str "CONVERGENCE", str "ABNORMAL", str "WARNING"] →
        1 ≤ out.solver.statistics.FunctionEvaluations ∧
        1 ≤ out.solver.statistics.GradientEvaluations) := by
  intro solver obj grad logf fuel s x0 p out cr hs h hcore
  unfold Lbfgsb.Minimize at h
  cases hInit : Lbfgsb.Init s (x0.length : Int) with
  | error e =>
    rw [hInit] at h
    exact Except.noConfusion h
  | ok s1 =>
    rw [hInit] at h
    dsimp only at h
    split_ifs at h with hdim
    · cases h
      exact Option.noConfusion hcore
    · cases hp : processParameters s1 p with
      | error es =>
        rw [hp] at h
        cases h
        exact Option.noConfusion hcore
      | ok quad =>
        rw [hp] at h
        rcases quad with ⟨a, f, g, pc⟩
        cases h
        have hcr : cr = coreOf solver obj grad logf fuel
            ⟨x0.length, boundsControlOf s1.lowerBounds s1.upperBounds x0.length,
             makeCCopySlice_Float s1.lowerBounds x0.length,
             makeCCopySlice_Float s1.upperBounds x0.length,
             a, f, g, x0, pc⟩ := by
          injection hcore with hcr
          exact hcr.symm
        refine ⟨rfl, fun hls hfs => ?_⟩
        have hghost := lbfgsb_minimize_ghost solver obj grad logf
          x0.length x0 fuel
        have hstart : (initialDriverSt x0.length x0).state ∈
            [str "CONVERGENCE", str "ABNORMAL", str "WARNING"] → False := by
          show str "START" ∈
            [str "CONVERGENCE", str "ABNORMAL", str "WARNING"] → False
          decide
        have hone : 1 ≤ (driverLoop solver obj grad logf fuel
            (initialDriverSt x0.length x0)).mem.evals := by
          refine driverLoop_evals_invariant solver obj grad logf hs fuel
            (initialDriverSt x0.length x0) (fun hmem => absurd (hstart hmem) id) ?_
          rw [← hghost.2]
          rw [hcr] at hfs
          exact hfs
        have hevals : 1 ≤ (coreOf solver obj grad logf fuel
            ⟨x0.length, boundsControlOf s1.lowerBounds s1.upperBounds x0.length,
             makeCCopySlice_Float s1.lowerBounds x0.length,
             makeCCopySlice_Float s1.upperBounds x0.length,
             a, f, g, x0, pc⟩).evals := by
          rw [show (coreOf solver obj grad logf fuel
              ⟨x0.length, boundsControlOf s1.lowerBounds s1.upperBounds x0.length,
               makeCCopySlice_Float s1.lowerBounds x0.length,
               makeCCopySlice_Float s1.upperBounds x0.length,
               a, f, g, x0, pc⟩).evals =
            (lbfgsb_minimize solver obj grad logf x0.length x0 fuel).evals
            from rfl]
          rw [hghost.1]
          exact hone
        exact ⟨hevals, hevals⟩

/-- Sample counting solver oracle for the C6 witness: it immediately
reports convergence with an evaluation count of at least 1. -/
def w6Solver : Setulb :=
  fun mem => { mem with task := str "CONVERGENCE: DONE",
                        evals := max mem.evals 1 }

/-- Sample objective callback for the C6 witness. -/
def w6Obj : ObjFn :=
  fun _ => { status := SUCCESS, value := GoFloat.zero, message := [] }

/-- Sample gradient callback for the C6 witness. -/
def w6Grad : GradFn :=
  fun _ => { status := SUCCESS, gradient := [GoFloat.zero], message := [] }

/-- Result of the sample composed Minimize run used by the C6 witness. -/
def w6Out : GoMinimizeOut :=
  match Lbfgsb.Minimize (coreOf w6Solver w6Obj w6Grad none 2) zeroLbfgsb
      [GoFloat.finite 10] (fun _ => none) with
  | Except.ok o => o
  | Except.error _ =>
    { solver := zeroLbfgsb, minimum := ⟨[], GoFloat.zero, []⟩,
      exitStatus := ⟨0, []⟩, core := none }

/-- Ghost core result of that run. -/
def w6Cr : CoreResult :=
  match w6Out.core with
  | some c => c
  | none =>
    { status := 0, message := [], minX := [], minF := GoFloat.zero,
      minG := [], iters := 0, evals := 0, loopStatus := 0,
      finalState := [], setulbCalls := 0, objCalls := 0, gradCalls := 0,
      logCalls := 0 }

/-- C6 witness: the composed run on the sample counting solver ends with
paired statistics both at least 1. -/
theorem statistics_paired_evaluations_witness :
    w6Out.solver.statistics.GradientEvaluations =
      w6Out.solver.statistics.FunctionEvaluations ∧
    1 ≤ w6Out.solver.statistics.FunctionEvaluations ∧
    1 ≤ w6Out.solver.statistics.GradientEvaluations := by
  have hs : SolverCountsEvaluations w6Solver := by
    intro mem
    refine ⟨le_max_left _ _, fun _ => le_max_right _ _⟩
  have hmain := statistics_paired_evaluations w6Solver w6Obj w6Grad none 2
    zeroLbfgsb [GoFloat.finite 10] (fun _ => none) w6Out w6Cr hs rfl rfl
  have hrest := hmain.2 (by decide) (by decide)
  exact ⟨hmain.1, hrest.1, hrest.2⟩

end GoLbfgsb
